import Mathlib

/-!
Verification of `MaybeSecureSocketAdaptor`
(src/libamqpprox/amqpprox_maybesecuresocketadaptor.h) against its
natural-language specification.

The adaptor wraps an SSL stream (`d_socket`) over a raw TCP socket
(`d_socket->next_layer()`), switches per operation between the two layers,
enforces a read-rate quota and alarm, and implements the one-byte
small-buffer workaround for zero-length asynchronous reads over TLS.

The embedding models the adaptor's member state as a structure and each
member function as a state-transition function.  The underlying socket
layers are modelled as oracles (functions from requested buffer size to the
data and error code the layer would produce), and asynchronous completion
handlers are modelled as separate functions on the state.  Effects that do
not change the adaptor state (log lines, which layer an operation was
dispatched to, timer cancellations) are returned as data so theorems can
speak about them.
-/

namespace Amqpprox

/-- Error codes, modelling `boost::system::error_code`: a default-constructed
code is `success`; `operationAborted` models `boost::asio::error::operation_aborted`;
the remaining constructors stand for arbitrary distinct failure codes. -/
inductive ErrorCode where
  | success
  | operationAborted
  | eof
  | connReset
  | other (n : Nat)
deriving DecidableEq, Repr

/-- `ec` evaluates to true in a boolean context iff it is not the default
(success) code, as with `if (ec)` on a `boost::system::error_code`. -/
def ErrorCode.isError : ErrorCode → Bool
  | ErrorCode.success => false
  | _ => true

/-- Modelled from the spec: `amqpprox_dataratelimit.h` is included by the
adaptor header but is not part of the provided sources.  Per the spec's data
model, a Quota Tracker holds `limitPerSecond` (`quota`) and `usedThisWindow`
(`usage`). -/
structure DataRateLimit where
  quota : Nat
  usage : Nat
deriving DecidableEq, Repr

/-- Modelled from the spec: `remainingQuota()` is
`limitPerSecond.saturating_sub(usedThisWindow)` (Nat subtraction in Lean is
saturating); zero means exhausted for this window. -/
def DataRateLimit.remainingQuota (d : DataRateLimit) : Nat :=
  d.quota - d.usage

/-- Modelled from the spec: `recordUsage(n)` increments the window usage. -/
def DataRateLimit.recordUsage (d : DataRateLimit) (n : Nat) : DataRateLimit :=
  { d with usage := d.usage + n }

/-- Modelled from the spec: on each refresh tick the tracker's usage resets
to zero. -/
def DataRateLimit.onTimer (d : DataRateLimit) : DataRateLimit :=
  { d with usage := 0 }

/-- Modelled from the spec: the configured bytes-per-second quota. -/
def DataRateLimit.getQuota (d : DataRateLimit) : Nat :=
  d.quota

/-- Modelled from the spec: `setQuota` stores a new bytes-per-second quota. -/
def DataRateLimit.setQuota (d : DataRateLimit) (n : Nat) : DataRateLimit :=
  { d with quota := n }

/-- The adaptor's member state.  `intercept` models whether the optional
`d_intercept` test seam is installed (`d_intercept.has_value()`); the byte
cache `d_smallBuffer` is a `Nat` byte value and `d_smallBufferSet` its
presence flag; the two `DataRateLimit` members, the alarm debounce flag and
the refresh-timer-started flag mirror the corresponding `d_` members. -/
structure Adaptor where
  intercept : Bool
  secured : Bool
  handshook : Bool
  smallBuffer : Nat
  smallBufferSet : Bool
  dataRateLimit : DataRateLimit
  dataRateAlarm : DataRateLimit
  alarmed : Bool
  dataRateTimerStarted : Bool
deriving DecidableEq, Repr

/-- `isSecure()` : `d_secured && d_handshook`.  The `d_handshook` check
exists because proxy protocol requires writing to the socket outside the
TLS tunnel. -/
def Adaptor.isSecure (st : Adaptor) : Bool :=
  st.secured && st.handshook

/-- `recordReadUsage(amount)` : records the amount against both the hard
limit tracker and the alarm tracker. -/
def Adaptor.recordReadUsage (st : Adaptor) (amount : Nat) : Adaptor :=
  { st with
    dataRateLimit := st.dataRateLimit.recordUsage amount
    dataRateAlarm := st.dataRateAlarm.recordUsage amount }

/-- `onTimer(error)` : returns unchanged on `operation_aborted`; otherwise
resets both trackers, clears `d_alarmed`, reschedules the timer one second
out (the rescheduling itself is external; the state records that the
refresh loop is now running via `d_dataRateTimerStarted = true`). -/
def Adaptor.onTimer (st : Adaptor) (error : ErrorCode) : Adaptor :=
  if error = ErrorCode.operationAborted then st
  else
    { st with
      dataRateLimit := st.dataRateLimit.onTimer
      dataRateAlarm := st.dataRateAlarm.onTimer
      alarmed := false
      dataRateTimerStarted := true }

/-- Result of an operation that first consults the interception seam:
`toIntercept` when `d_intercept.has_value()` and the call is delegated
wholesale to the seam, `result` for the adaptor's own behaviour. -/
inductive Dispatched (α : Type) where
  | toIntercept : Dispatched α
  | result : α → Dispatched α
deriving DecidableEq, Repr

/-- Which underlying layer an operation acts on: the SSL stream wrapper
(`d_socket`) or the raw TCP socket (`d_socket->next_layer()`). -/
inductive Target where
  | encrypted
  | raw
deriving DecidableEq, Repr

/-- Result of a synchronous `read_some` call: the bytes written to the
caller's buffer starting at position 0, the out-parameter error code, the
returned byte count, the list of `recordReadUsage` invocations made during
the call (in order, with their amounts), and the adaptor state after the
call. -/
structure ReadResult where
  bytes : List Nat
  ec : ErrorCode
  ret : Nat
  usageRecorded : List Nat
  st : Adaptor
deriving DecidableEq, Repr

/-- `read_some(buffers, ec)` with a caller buffer of size `bufSize`.
`sslRead` and `rawRead` are oracles for `d_socket->read_some` and
`d_socket->next_layer().read_some` on a buffer of the given size: each
returns the data placed in that buffer and the resulting error code.

Secure path with the small-buffer workaround byte cached and a buffer that
can hold it: the cached byte goes to position 0, the flag is cleared, and a
secondary read fills the remainder (`replacement += 1`, size `bufSize - 1`).
A zero-byte secondary read with an error is suppressed and reported as a
successful one-byte read; otherwise `1 + result` is reported.  Secure path
otherwise: direct SSL read (note: no usage is recorded there).  Insecure
path: raw read with usage recorded. -/
def read_some (st : Adaptor) (bufSize : Nat)
    (sslRead : Nat → List Nat × ErrorCode)
    (rawRead : Nat → List Nat × ErrorCode) : Dispatched ReadResult :=
  if st.intercept then Dispatched.toIntercept
  else Dispatched.result (
    if st.isSecure then
      if st.smallBufferSet ∧ 1 ≤ bufSize then
        let st1 : Adaptor := { st with smallBufferSet := false }
        let res := sslRead (bufSize - 1)
        if res.2.isError ∧ res.1.length = 0 then
          { bytes := [st.smallBuffer]
            ec := ErrorCode.success
            ret := 1
            usageRecorded := [1]
            st := st1.recordReadUsage 1 }
        else
          { bytes := st.smallBuffer :: res.1
            ec := res.2
            ret := 1 + res.1.length
            usageRecorded := [1 + res.1.length]
            st := st1.recordReadUsage (1 + res.1.length) }
      else
        let res := sslRead bufSize
        { bytes := res.1, ec := res.2, ret := res.1.length
          usageRecorded := [], st := st }
    else
      let res := rawRead bufSize
      { bytes := res.1, ec := res.2, ret := res.1.length
        usageRecorded := [res.1.length]
        st := st.recordReadUsage res.1.length })

/-- How the null-buffers `async_read_some` leaves the request after its
quota gate: suspended as a continuation on the next timer firing, or
dispatched as an SSL zero-sized read (cached byte already present), an SSL
one-byte read into `d_smallBuffer`, or a raw null-buffers read. -/
inductive AsyncReadOutcome where
  | suspended
  | sslZeroSizeRead
  | sslOneByteRead
  | rawNullRead
deriving DecidableEq, Repr

/-- Result of the null-buffers `async_read_some` entry: the adaptor state
when the function returns, whether the data-rate alarm log line was
emitted, how many synchronous bootstrap refresh-ticks (`this->onTimer`
calls) were performed during the call, and the dispatch outcome. -/
structure AsyncReadResult where
  st : Adaptor
  alarmLogged : Bool
  syncTicks : Nat
  outcome : AsyncReadOutcome
deriving DecidableEq, Repr

/-- The alarm-quota gate at the top of `async_read_some`: when not already
alarmed and the alarm tracker's remaining quota is zero, either log the
alarm and set `d_alarmed` (refresh loop running) or perform a synchronous
bootstrap refresh-tick (loop not running). -/
def alarmGate (st0 : Adaptor) : AsyncReadResult :=
  if st0.alarmed = false ∧ st0.dataRateAlarm.remainingQuota = 0 then
    if st0.dataRateTimerStarted then
      { st := { st0 with alarmed := true }, alarmLogged := true
        syncTicks := 0, outcome := AsyncReadOutcome.rawNullRead }
    else
      { st := st0.onTimer ErrorCode.success, alarmLogged := false
        syncTicks := 1, outcome := AsyncReadOutcome.rawNullRead }
  else
    { st := st0, alarmLogged := false, syncTicks := 0
      outcome := AsyncReadOutcome.rawNullRead }

/-- `async_read_some(null_buffers, handler)` : after the interception check,
run the alarm gate, then the hard-quota gate (suspend on the timer when the
refresh loop is running, bootstrap-tick otherwise), then dispatch: secure
with a cached byte issues a zero-sized SSL read so the handler fires
promptly; secure without one issues a one-byte SSL read into
`d_smallBuffer` wrapped with `smallReadCompletion`; insecure forwards the
null-buffers read to the raw socket.  The `outcome` field of `alarmGate`'s
intermediate result is ignored; only the final record's `outcome` is
meaningful. -/
def async_read_some (st0 : Adaptor) : Dispatched AsyncReadResult :=
  if st0.intercept then Dispatched.toIntercept
  else
    let g := alarmGate st0
    if g.st.dataRateLimit.remainingQuota = 0 ∧ g.st.dataRateTimerStarted then
      Dispatched.result
        { st := g.st, alarmLogged := g.alarmLogged, syncTicks := g.syncTicks
          outcome := AsyncReadOutcome.suspended }
    else
      let st2 : Adaptor :=
        if g.st.dataRateLimit.remainingQuota = 0 then
          g.st.onTimer ErrorCode.success
        else g.st
      let ticks2 : Nat :=
        if g.st.dataRateLimit.remainingQuota = 0 then g.syncTicks + 1
        else g.syncTicks
      Dispatched.result
        { st := st2, alarmLogged := g.alarmLogged, syncTicks := ticks2
          outcome :=
            if st2.isSecure then
              if st2.smallBufferSet then AsyncReadOutcome.sslZeroSizeRead
              else AsyncReadOutcome.sslOneByteRead
            else AsyncReadOutcome.rawNullRead }

/-- The values passed to the caller's completion handler. -/
structure HandlerCall where
  ec : ErrorCode
  len : Nat
deriving DecidableEq, Repr

/-- Result of the internal one-byte SSL read's completion lambda. -/
structure CompletionResult where
  st : Adaptor
  handler : HandlerCall
deriving DecidableEq, Repr

/-- The completion lambda of the internal one-byte SSL read issued by the
secure `async_read_some` path: the underlying read has written `byteRead`
into `d_smallBuffer` iff `len` is nonzero; the lambda sets
`d_smallBufferSet` when `length != 0` and then invokes the caller's handler
with the same error code and length. -/
def smallReadCompletion (st : Adaptor) (byteRead : Nat) (len : Nat)
    (ec : ErrorCode) : CompletionResult :=
  if len ≠ 0 then
    { st := { st with smallBuffer := byteRead, smallBufferSet := true }
      handler := { ec := ec, len := len } }
  else
    { st := st, handler := { ec := ec, len := len } }

/-- Outcome of `async_handshake`: the SSL-layer handshake was issued, or
the handler was invoked immediately with the given code. -/
inductive HandshakeOutcome where
  | sslHandshakeIssued
  | handlerInvoked (ec : ErrorCode)
deriving DecidableEq, Repr

/-- `async_handshake(type, handler)` : after the interception check, branch
on `d_secured` only; when secured, set `d_handshook = true` and issue the
SSL handshake; otherwise invoke the handler immediately with a
default-constructed (success) error code. -/
def async_handshake (st : Adaptor) : Dispatched (Adaptor × HandshakeOutcome) :=
  if st.intercept then Dispatched.toIntercept
  else if st.secured then
    Dispatched.result ({ st with handshook := true },
                       HandshakeOutcome.sslHandshakeIssued)
  else
    Dispatched.result (st, HandshakeOutcome.handlerInvoked ErrorCode.success)

/-- The externally visible steps taken by `async_shutdown`, in order. -/
inductive ShutdownStep where
  | rawShutdownReceive
  | rawShutdownBoth
  | sslAsyncShutdown
  | handlerNow (ec : ErrorCode)
deriving DecidableEq, Repr

/-- Result of `async_shutdown`: the steps performed and whether the
receive-direction shutdown failure was logged. -/
structure ShutdownResult where
  steps : List ShutdownStep
  loggedShutdownError : Bool
deriving DecidableEq, Repr

/-- `async_shutdown(handler)` with `rawEc` the error code produced by the
synchronous raw-socket `shutdown` call it makes: when secured, shut down
the receive direction of the raw socket (logging, not propagating, any
error) and then issue the SSL async shutdown; otherwise shut down both
directions of the raw socket synchronously and invoke the handler directly
with the resulting code. -/
def async_shutdown (st : Adaptor) (rawEc : ErrorCode) :
    Dispatched ShutdownResult :=
  if st.intercept then Dispatched.toIntercept
  else if st.secured then
    Dispatched.result
      { steps := [ShutdownStep.rawShutdownReceive,
                  ShutdownStep.sslAsyncShutdown]
        loggedShutdownError := rawEc.isError }
  else
    Dispatched.result
      { steps := [ShutdownStep.rawShutdownBoth, ShutdownStep.handlerNow rawEc]
        loggedShutdownError := false }

/-- `available(ec)` with `sslPending` the value of
`SSL_pending(d_socket->native_handle())` and `rawAvailable` the raw
socket's reported available count: branches on `d_secured` (alone), adding
1 for a cached workaround byte on the secured branch. -/
def available (st : Adaptor) (sslPending : Nat) (rawAvailable : Nat) :
    Dispatched Nat :=
  if st.intercept then Dispatched.toIntercept
  else Dispatched.result (
    if st.secured then
      (if st.smallBufferSet then 1 else 0) + sslPending
    else rawAvailable)

/-- Dispatch target of `read_some` (line 332: branches on `isSecure()`). -/
def readSomeTarget (st : Adaptor) : Target :=
  if st.isSecure then Target.encrypted else Target.raw

/-- Dispatch target of the `async_read_some` data path (line 453: branches
on `isSecure()`). -/
def asyncReadSomeTarget (st : Adaptor) : Target :=
  if st.isSecure then Target.encrypted else Target.raw

/-- Dispatch target of `async_write_some` (line 316: branches on
`isSecure()`). -/
def asyncWriteSomeTarget (st : Adaptor) : Target :=
  if st.isSecure then Target.encrypted else Target.raw

/-- Dispatch target of `available` (line 231: branches on `d_secured`
alone). -/
def availableTarget (st : Adaptor) : Target :=
  if st.secured then Target.encrypted else Target.raw

/-- Dispatch target of `remote_endpoint` (line 198: always
`next_layer()`). -/
def remoteEndpointTarget (_ : Adaptor) : Target := Target.raw

/-- Dispatch target of `local_endpoint` (line 207: always
`next_layer()`). -/
def localEndpointTarget (_ : Adaptor) : Target := Target.raw

/-- Dispatch target of `close` (line 217: always `next_layer()`). -/
def closeTarget (_ : Adaptor) : Target := Target.raw

/-- Dispatch target of `async_connect` (line 248: always
`next_layer()`). -/
def asyncConnectTarget (_ : Adaptor) : Target := Target.raw

/-- Whether `async_handshake` takes its SSL branch (line 265: branches on
`d_secured` alone). -/
def asyncHandshakeUsesSsl (st : Adaptor) : Bool := st.secured

/-- Whether `async_shutdown` takes its SSL branch (line 284: branches on
`d_secured` alone). -/
def asyncShutdownUsesSsl (st : Adaptor) : Bool := st.secured

/-- Actions performed on a timer object. -/
inductive TimerAction where
  | cancel
deriving DecidableEq, Repr

/-- Result of the move constructor: the newly constructed adaptor, the
moved-from source, and the actions performed on the source's timer. -/
structure MoveResult where
  dst : Adaptor
  srcAfter : Adaptor
  srcTimerActions : List TimerAction
deriving DecidableEq, Repr

/-- The move constructor (lines 111-132): the destination copies the
source's fields but gets a fresh timer with `d_alarmed = false` and
`d_dataRateTimerStarted = false`; the source's socket, security flags and
byte cache are cleared and the source's timer is cancelled. -/
def moveConstruct (src : Adaptor) : MoveResult :=
  { dst := { src with alarmed := false, dataRateTimerStarted := false }
    srcAfter := { src with
      secured := false, handshook := false
      smallBuffer := 0, smallBufferSet := false }
    srcTimerActions := [TimerAction.cancel] }

/-- The destructor (line 134): cancels the adaptor's timer. -/
def destructorTimerActions (_ : Adaptor) : List TimerAction :=
  [TimerAction.cancel]

/-- What a fired deferred-read continuation does: whether the suspended
`async_read_some` was re-issued (the only route by which the original
handler can ever be invoked), and the adaptor state it produced (`none`
when the callback returned without touching any adaptor state). -/
structure DeferredCallbackResult where
  reissuedRead : Bool
  stateAfter : Option Adaptor
deriving DecidableEq, Repr

/-- The continuation attached to the timer when a read is suspended on hard
quota exhaustion (lines 416-440): return immediately on
`operation_aborted`; lock the weak back-reference and return if the adaptor
is gone; otherwise run `onTimer` and re-issue `async_read_some`.
`resolved` models the result of `weakSelf.lock()`. -/
def suspendedReadCallback (error : ErrorCode) (resolved : Option Adaptor) :
    DeferredCallbackResult :=
  if error = ErrorCode.operationAborted then
    { reissuedRead := false, stateAfter := none }
  else
    match resolved with
    | none => { reissuedRead := false, stateAfter := none }
    | some self =>
      let self1 := self.onTimer error
      { reissuedRead := true
        stateAfter := some (
          match async_read_some self1 with
          | Dispatched.toIntercept => self1
          | Dispatched.result r => r.st) }

/-- The recurring refresh-timer callback scheduled by `onTimer`
(lines 508-522): lock the weak back-reference; if the adaptor is gone do
nothing, otherwise call `onTimer` with the callback's error code (which
itself returns unchanged on `operation_aborted`). -/
def refreshTimerCallback (error : ErrorCode) (resolved : Option Adaptor) :
    Option Adaptor :=
  match resolved with
  | none => none
  | some self => some (self.onTimer error)

/-! Concrete states and oracles used to instantiate the theorems below. -/

/-- A freshly constructed adaptor (no interception seam, plaintext), with a
100-byte hard quota and a 50-byte alarm quota configured. -/
def plainState : Adaptor :=
  { intercept := false, secured := false, handshook := false
    smallBuffer := 0, smallBufferSet := false
    dataRateLimit := { quota := 100, usage := 0 }
    dataRateAlarm := { quota := 50, usage := 0 }
    alarmed := false, dataRateTimerStarted := false }

/-- A secure, handshook adaptor with no cached workaround byte. -/
def secureState : Adaptor :=
  { plainState with secured := true, handshook := true }

/-- A secure, handshook adaptor with the workaround byte 42 cached. -/
def cachedState : Adaptor :=
  { secureState with smallBuffer := 42, smallBufferSet := true }

/-- A socket-layer oracle that returns no data and success. -/
def oracleNil : Nat → List Nat × ErrorCode := fun _ => ([], ErrorCode.success)

/-- A socket-layer oracle that returns two bytes and success. -/
def oracleTwo : Nat → List Nat × ErrorCode :=
  fun _ => ([7, 8], ErrorCode.success)

/-- A socket-layer oracle that returns no data and an end-of-file error. -/
def oracleEof : Nat → List Nat × ErrorCode := fun _ => ([], ErrorCode.eof)

/-- A socket-layer oracle that returns three bytes and success. -/
def oracleThree : Nat → List Nat × ErrorCode :=
  fun _ => ([7, 8, 9], ErrorCode.success)

/-- An adaptor whose alarm quota is exhausted while the refresh loop is
running. -/
def alarmStartedState : Adaptor :=
  { plainState with dataRateAlarm := { quota := 50, usage := 50 }
                    dataRateTimerStarted := true }

/-- An adaptor whose alarm quota is exhausted before the refresh loop has
ever started. -/
def alarmFreshState : Adaptor :=
  { plainState with dataRateAlarm := { quota := 50, usage := 50 } }

/-- An adaptor whose hard quota is exhausted while the refresh loop is
running. -/
def hardStartedState : Adaptor :=
  { plainState with dataRateLimit := { quota := 100, usage := 100 }
                    dataRateTimerStarted := true }

/-- An adaptor whose hard quota is exhausted before the refresh loop has
ever started. -/
def hardFreshState : Adaptor :=
  { plainState with dataRateLimit := { quota := 100, usage := 100 } }

/-- The async-read result produced from `alarmStartedState`: alarm logged,
`alarmed` set, no synchronous tick. -/
def alarmStartedRead : AsyncReadResult :=
  { st := { alarmStartedState with alarmed := true }, alarmLogged := true
    syncTicks := 0, outcome := AsyncReadOutcome.rawNullRead }

/-- The async-read result produced from `alarmFreshState`: one bootstrap
tick, no alarm. -/
def alarmFreshRead : AsyncReadResult :=
  { st := { plainState with dataRateTimerStarted := true }
    alarmLogged := false, syncTicks := 1
    outcome := AsyncReadOutcome.rawNullRead }

/-- The async-read result produced from `hardStartedState`: the read is
suspended on the timer. -/
def hardStartedRead : AsyncReadResult :=
  { st := hardStartedState, alarmLogged := false, syncTicks := 0
    outcome := AsyncReadOutcome.suspended }

/-- The async-read result produced from `hardFreshState`: one bootstrap
tick and the read proceeds. -/
def hardFreshRead : AsyncReadResult :=
  { st := { plainState with dataRateTimerStarted := true }
    alarmLogged := false, syncTicks := 1
    outcome := AsyncReadOutcome.rawNullRead }

/-- The async-read result produced from `plainState` itself: direct raw
dispatch, nothing recorded. -/
def plainAsyncRead : AsyncReadResult :=
  { st := plainState, alarmLogged := false, syncTicks := 0
    outcome := AsyncReadOutcome.rawNullRead }

/-- The result of `read_some plainState 10 oracleTwo oracleNil` (insecure
path, raw oracle delivers nothing). -/
def insecureNilRead : ReadResult :=
  { bytes := [], ec := ErrorCode.success, ret := 0, usageRecorded := [0]
    st := Adaptor.recordReadUsage plainState 0 }

/-- The result of `read_some cachedState 10 oracleTwo oracleNil`: the
cached byte 42 followed by the two oracle bytes. -/
def consumedRead : ReadResult :=
  { bytes := [42, 7, 8], ec := ErrorCode.success, ret := 3
    usageRecorded := [3]
    st := Adaptor.recordReadUsage { cachedState with smallBufferSet := false }
            3 }

/-- The result of `read_some cachedState 0 oracleTwo oracleNil`: the
zero-sized buffer bypasses the cached byte entirely. -/
def bypassRead : ReadResult :=
  { bytes := [7, 8], ec := ErrorCode.success, ret := 2, usageRecorded := []
    st := cachedState }

/-! Theorems settling the claims.  The `lemma`s are shared helpers about
the embedded definitions; the `c<n>_...` theorems settle the claims. -/

/-- A refresh tick never changes the small-buffer flag. -/
lemma onTimer_smallBufferSet (st : Adaptor) (e : ErrorCode) :
    (st.onTimer e).smallBufferSet = st.smallBufferSet := by
  unfold Adaptor.onTimer
  split <;> rfl

/-- The alarm gate never changes the small-buffer flag. -/
lemma alarmGate_smallBufferSet (st : Adaptor) :
    (alarmGate st).st.smallBufferSet = st.smallBufferSet := by
  unfold alarmGate
  split
  · split
    · rfl
    · exact onTimer_smallBufferSet st ErrorCode.success
  · rfl

/-- After a refresh tick of a tracker, the whole configured quota is
available again. -/
lemma remainingQuota_onTimer (d : DataRateLimit) :
    d.onTimer.remainingQuota = d.quota := by
  simp [DataRateLimit.onTimer, DataRateLimit.remainingQuota]

/-- A non-aborted refresh tick leaves the refresh loop running. -/
lemma onTimer_success_timerStarted (st : Adaptor) :
    (st.onTimer ErrorCode.success).dataRateTimerStarted = true := by
  simp [Adaptor.onTimer]

/-- C6: without an interception override, `async_handshake` on a secured
adaptor sets `handshook` at the moment the handshake is issued and
delegates to the encrypted layer's handshake; on an unsecured adaptor it
invokes the completion handler immediately with a success code and
performs no handshake. -/
theorem c6_async_handshake (s1 s2 : Adaptor)
    (h1i : s1.intercept = false) (h1s : s1.secured = true)
    (h2i : s2.intercept = false) (h2s : s2.secured = false) :
    async_handshake s1 =
      Dispatched.result ({ s1 with handshook := true },
                         HandshakeOutcome.sslHandshakeIssued) ∧
    async_handshake s2 =
      Dispatched.result (s2, HandshakeOutcome.handlerInvoked
                              ErrorCode.success) := by
  constructor <;> simp [async_handshake, h1i, h1s, h2i, h2s]

/-- C6 witness: the theorem applied to a secured and an unsecured concrete
adaptor. -/
theorem c6_async_handshake_witness :
    async_handshake { plainState with secured := true } =
      Dispatched.result ({ { plainState with secured := true } with
                            handshook := true },
                         HandshakeOutcome.sslHandshakeIssued) ∧
    async_handshake plainState =
      Dispatched.result (plainState, HandshakeOutcome.handlerInvoked
                                      ErrorCode.success) :=
  c6_async_handshake { plainState with secured := true } plainState
    rfl rfl rfl rfl

/-- C7 counterexample: on an unsecured adaptor whose raw both-direction
shutdown fails with `connReset`, the handler is invoked with that failure
code, not with a success code as the claim states. -/
theorem c7_counterexample :
    async_shutdown plainState ErrorCode.connReset =
      Dispatched.result
        { steps := [ShutdownStep.rawShutdownBoth,
                    ShutdownStep.handlerNow ErrorCode.connReset]
          loggedShutdownError := false } ∧
    ErrorCode.connReset ≠ ErrorCode.success := by
  constructor
  · rfl
  · decide

/-- C7 (amended): without an interception override, a secured
`async_shutdown` performs a synchronous receive-direction half-close on the
raw transport whose failure is logged but never propagated, followed by the
encrypted layer's asynchronous shutdown; an unsecured `async_shutdown`
performs a synchronous both-direction raw shutdown and invokes the handler
immediately with the error code that shutdown produced (success when it
succeeds), with no asynchronous step. -/
theorem c7_async_shutdown (s1 s2 : Adaptor) (e1 e2 : ErrorCode)
    (h1i : s1.intercept = false) (h1s : s1.secured = true)
    (h2i : s2.intercept = false) (h2s : s2.secured = false) :
    async_shutdown s1 e1 =
      Dispatched.result
        { steps := [ShutdownStep.rawShutdownReceive,
                    ShutdownStep.sslAsyncShutdown]
          loggedShutdownError := e1.isError } ∧
    async_shutdown s2 e2 =
      Dispatched.result
        { steps := [ShutdownStep.rawShutdownBoth,
                    ShutdownStep.handlerNow e2]
          loggedShutdownError := false } := by
  constructor <;> simp [async_shutdown, h1i, h1s, h2i, h2s]

/-- C7 witness: the amended theorem applied to a secured adaptor whose
half-close fails (the failure is only logged) and an unsecured adaptor
whose shutdown succeeds (the handler receives success). -/
theorem c7_async_shutdown_witness :
    async_shutdown { plainState with secured := true } ErrorCode.connReset =
      Dispatched.result
        { steps := [ShutdownStep.rawShutdownReceive,
                    ShutdownStep.sslAsyncShutdown]
          loggedShutdownError := ErrorCode.isError ErrorCode.connReset } ∧
    async_shutdown plainState ErrorCode.success =
      Dispatched.result
        { steps := [ShutdownStep.rawShutdownBoth,
                    ShutdownStep.handlerNow ErrorCode.success]
          loggedShutdownError := false } :=
  c7_async_shutdown { plainState with secured := true } plainState
    ErrorCode.connReset ErrorCode.success rfl rfl rfl rfl

/-- C5 counterexample: with `secured` set but the handshake not yet
performed, `available` still takes the SSL branch and reports
`SSL_pending` (here 5) rather than the raw transport's available count
(here 7), contradicting the claim's "in every other state (including
secured set but handshake not yet performed) it returns the raw
transport's reported available count". -/
theorem c5_counterexample :
    available { plainState with secured := true } 5 7 =
      Dispatched.result 5 ∧ (5 : Nat) ≠ 7 := by
  constructor
  · rfl
  · decide

/-- C5 (amended): without an interception override, `available` branches on
`secured` alone: whenever `secured` is set (handshook or not) it returns
(1 if the workaround byte is cached else 0) plus the encryption layer's
buffered decrypted byte count, and when `secured` is clear it returns the
raw transport's reported available count. -/
theorem c5_available (s1 s2 : Adaptor) (p a : Nat)
    (h1i : s1.intercept = false) (h1s : s1.secured = true)
    (h2i : s2.intercept = false) (h2s : s2.secured = false) :
    available s1 p a =
      Dispatched.result ((if s1.smallBufferSet then 1 else 0) + p) ∧
    available s2 p a = Dispatched.result a := by
  constructor <;> simp [available, h1i, h1s, h2i, h2s]

/-- C5 witness: the amended theorem applied to a secured adaptor with a
cached byte and to a plaintext adaptor. -/
theorem c5_available_witness :
    available cachedState 5 7 =
      Dispatched.result ((if cachedState.smallBufferSet then 1 else 0) + 5) ∧
    available plainState 5 7 = Dispatched.result 7 :=
  c5_available cachedState plainState 5 7 rfl rfl rfl rfl

/-- C10: on a secure, handshook adaptor with a cached workaround byte, a
synchronous `read_some` with a zero-sized caller buffer bypasses the
cached-byte branch (which requires a buffer of size at least 1) and
delegates directly to the encrypted stream's `read_some`, leaving the
adaptor state — including the pending byte — untouched. -/
theorem c10_zero_buffer_bypass (st : Adaptor)
    (ssl raw : Nat → List Nat × ErrorCode)
    (hi : st.intercept = false) (hsec : st.secured = true)
    (hhs : st.handshook = true) (hf : st.smallBufferSet = true) :
    read_some st 0 ssl raw =
      Dispatched.result
        { bytes := (ssl 0).1, ec := (ssl 0).2, ret := (ssl 0).1.length
          usageRecorded := [], st := st } := by
  simp [read_some, Adaptor.isSecure, hi, hsec, hhs, hf]

/-- C10 witness: the theorem applied to a concrete cached-byte adaptor and
a nil oracle; the pending byte stays cached. -/
theorem c10_zero_buffer_bypass_witness :
    read_some cachedState 0 oracleNil oracleNil =
      Dispatched.result
        { bytes := (oracleNil 0).1, ec := (oracleNil 0).2
          ret := (oracleNil 0).1.length
          usageRecorded := [], st := cachedState } :=
  c10_zero_buffer_bypass cachedState oracleNil oracleNil rfl rfl rfl rfl

/-- C9: destroying or moving-from an adaptor cancels its timer, and both
the quota-exhaustion-deferred read continuation and the refresh-timer
callback, on observing an operation-aborted error or a failed
weak-reference resolution, return without re-issuing the suspended read
(the only route to the original handler) and without touching any adaptor
state. -/
theorem c9_cancellation :
    (∀ src : Adaptor,
      (moveConstruct src).srcTimerActions = [TimerAction.cancel] ∧
      destructorTimerActions src = [TimerAction.cancel]) ∧
    (∀ r, suspendedReadCallback ErrorCode.operationAborted r =
      { reissuedRead := false, stateAfter := none }) ∧
    (∀ e, suspendedReadCallback e none =
      { reissuedRead := false, stateAfter := none }) ∧
    (∀ e, refreshTimerCallback e none = none) := by
  refine ⟨fun src => ⟨rfl, rfl⟩, fun r => rfl, fun e => ?_, fun e => rfl⟩
  by_cases h : e = ErrorCode.operationAborted <;>
    simp [suspendedReadCallback, h]

/-- C3: on a secure, handshook adaptor with a cached workaround byte and a
caller buffer of size at least 1, synchronous `read_some` writes the cached
byte to position 0, clears the cache and performs a secondary read into the
remainder; a zero-byte secondary read with an error is suppressed and
reported as a successful one-byte read; otherwise the call reports
`1 + secondary_bytes_read`, and in each case records the reported total as
usage. -/
theorem c3_cached_byte_read (st : Adaptor) (k : Nat)
    (ssl raw : Nat → List Nat × ErrorCode)
    (hi : st.intercept = false) (hsec : st.secured = true)
    (hhs : st.handshook = true) (hf : st.smallBufferSet = true)
    (hk : 1 ≤ k) :
    (((ssl (k - 1)).2.isError = true ∧ (ssl (k - 1)).1 = []) →
      read_some st k ssl raw =
        Dispatched.result
          { bytes := [st.smallBuffer], ec := ErrorCode.success, ret := 1
            usageRecorded := [1]
            st := Adaptor.recordReadUsage
                    { st with smallBufferSet := false } 1 }) ∧
    (¬((ssl (k - 1)).2.isError = true ∧ (ssl (k - 1)).1 = []) →
      read_some st k ssl raw =
        Dispatched.result
          { bytes := st.smallBuffer :: (ssl (k - 1)).1, ec := (ssl (k - 1)).2
            ret := 1 + (ssl (k - 1)).1.length
            usageRecorded := [1 + (ssl (k - 1)).1.length]
            st := Adaptor.recordReadUsage { st with smallBufferSet := false }
                    (1 + (ssl (k - 1)).1.length) }) := by
  constructor <;> intro hc
  · simp [read_some, Adaptor.isSecure, hi, hsec, hhs, hf, hk, hc.1, hc.2]
  · simp [read_some, Adaptor.isSecure, hi, hsec, hhs, hf, hk, hc]

/-- C3 witness: the theorem applied to a concrete cached-byte adaptor, once
with a secondary read failing at end-of-stream with zero bytes (suppressed,
one-byte success) and once with a secondary read returning two bytes
(three-byte total). -/
theorem c3_cached_byte_read_witness :
    read_some cachedState 10 oracleEof oracleNil =
      Dispatched.result
        { bytes := [cachedState.smallBuffer], ec := ErrorCode.success
          ret := 1, usageRecorded := [1]
          st := Adaptor.recordReadUsage
                  { cachedState with smallBufferSet := false } 1 } ∧
    read_some cachedState 10 oracleTwo oracleNil =
      Dispatched.result
        { bytes := cachedState.smallBuffer :: (oracleTwo (10 - 1)).1
          ec := (oracleTwo (10 - 1)).2
          ret := 1 + (oracleTwo (10 - 1)).1.length
          usageRecorded := [1 + (oracleTwo (10 - 1)).1.length]
          st := Adaptor.recordReadUsage
                  { cachedState with smallBufferSet := false }
                  (1 + (oracleTwo (10 - 1)).1.length) } :=
  ⟨(c3_cached_byte_read cachedState 10 oracleEof oracleNil
      rfl rfl rfl rfl (by decide)).1 (by decide),
   (c3_cached_byte_read cachedState 10 oracleTwo oracleNil
      rfl rfl rfl rfl (by decide)).2 (by decide)⟩

/-- C4 counterexample: a completed secure, handshook synchronous read with
no cached workaround byte delivers three bytes to the reader but makes no
`recordUsage` invocation at all (`usageRecorded = []` and the adaptor state,
trackers included, is unchanged), contradicting the claim that every
completed read records its delivered byte count exactly once. -/
theorem c4_counterexample :
    read_some secureState 10 oracleThree oracleNil =
      Dispatched.result
        { bytes := [7, 8, 9], ec := ErrorCode.success, ret := 3
          usageRecorded := [], st := secureState } ∧
    ([] : List Nat) ≠ [3] := by
  constructor
  · rfl
  · decide

/-- C4 (amended): `recordUsage` increments the usage of both the hard-limit
tracker and the alarm tracker; it is invoked exactly once with the number
of bytes delivered on the insecure synchronous read path and on the secure
cached-byte read path, but the secure synchronous read path without a
cached byte and the asynchronous one-byte completion handler record no
usage at all. -/
theorem c4_usage_recording (s1 s2 s3 sc : Adaptor) (k1 k2 k3 b len : Nat)
    (e : ErrorCode) (ssl raw : Nat → List Nat × ErrorCode)
    (h1i : s1.intercept = false) (h1ns : s1.isSecure = false)
    (h2i : s2.intercept = false) (h2sec : s2.secured = true)
    (h2hs : s2.handshook = true) (h2f : s2.smallBufferSet = true)
    (h2k : 1 ≤ k2)
    (h3i : s3.intercept = false) (h3sec : s3.secured = true)
    (h3hs : s3.handshook = true) (h3f : s3.smallBufferSet = false) :
    (∀ st : Adaptor, ∀ n : Nat,
      (st.recordReadUsage n).dataRateLimit.usage =
        st.dataRateLimit.usage + n ∧
      (st.recordReadUsage n).dataRateAlarm.usage =
        st.dataRateAlarm.usage + n) ∧
    (∀ r, read_some s1 k1 ssl raw = Dispatched.result r →
      r.usageRecorded = [r.bytes.length] ∧
      r.st = s1.recordReadUsage r.bytes.length) ∧
    (∀ r, read_some s2 k2 ssl raw = Dispatched.result r →
      r.usageRecorded = [r.ret] ∧ r.bytes.length = r.ret) ∧
    (∀ r, read_some s3 k3 ssl raw = Dispatched.result r →
      r.usageRecorded = [] ∧ r.st = s3) ∧
    ((smallReadCompletion sc b len e).st.dataRateLimit = sc.dataRateLimit ∧
     (smallReadCompletion sc b len e).st.dataRateAlarm = sc.dataRateAlarm) := by
  refine ⟨fun st n => ⟨rfl, rfl⟩, ?_, ?_, ?_, ?_⟩
  · intro r hr
    simp [read_some, h1i, h1ns] at hr
    subst hr
    simp
  · intro r hr
    by_cases hc : (ssl (k2 - 1)).2.isError = true ∧ (ssl (k2 - 1)).1 = []
    · simp [read_some, Adaptor.isSecure, h2i, h2sec, h2hs, h2f, h2k,
            hc.1, hc.2] at hr
      subst hr
      simp
    · simp [read_some, Adaptor.isSecure, h2i, h2sec, h2hs, h2f, h2k, hc]
        at hr
      subst hr
      simp [Nat.add_comm]
  · intro r hr
    simp [read_some, Adaptor.isSecure, h3i, h3sec, h3hs, h3f] at hr
    subst hr
    simp
  · by_cases hl : len ≠ 0 <;> simp [smallReadCompletion, hl]

/-- C4 witness: the amended theorem applied at concrete states; the
insecure read records its two delivered bytes, the cached-byte read
records its reported total, and the secure non-cached read records
nothing. -/
theorem c4_usage_recording_witness :
    (∀ st : Adaptor, ∀ n : Nat,
      (st.recordReadUsage n).dataRateLimit.usage =
        st.dataRateLimit.usage + n ∧
      (st.recordReadUsage n).dataRateAlarm.usage =
        st.dataRateAlarm.usage + n) ∧
    (∀ r, read_some plainState 10 oracleNil oracleTwo =
        Dispatched.result r →
      r.usageRecorded = [r.bytes.length] ∧
      r.st = plainState.recordReadUsage r.bytes.length) ∧
    (∀ r, read_some cachedState 10 oracleNil oracleTwo =
        Dispatched.result r →
      r.usageRecorded = [r.ret] ∧ r.bytes.length = r.ret) ∧
    (∀ r, read_some secureState 10 oracleNil oracleTwo =
        Dispatched.result r →
      r.usageRecorded = [] ∧ r.st = secureState) ∧
    ((smallReadCompletion plainState 9 1 ErrorCode.success).st.dataRateLimit =
       plainState.dataRateLimit ∧
     (smallReadCompletion plainState 9 1 ErrorCode.success).st.dataRateAlarm =
       plainState.dataRateAlarm) :=
  c4_usage_recording plainState cachedState secureState plainState
    10 10 10 9 1 ErrorCode.success oracleNil oracleTwo
    rfl rfl rfl rfl rfl rfl (by decide) rfl rfl rfl rfl

/-- C8 counterexample: on a secure, handshook adaptor (`isSecure` true),
`close` still targets the raw transport, and on an adaptor with `secured`
set but `handshook` clear (`isSecure` false), `available` still targets the
encrypted layer — contradicting the claim that every operation other than
handshake and shutdown branches on `isSecure()`. -/
theorem c8_counterexample :
    Adaptor.isSecure secureState = true ∧
    closeTarget secureState = Target.raw ∧
    Target.raw ≠ Target.encrypted ∧
    Adaptor.isSecure { plainState with secured := true } = false ∧
    availableTarget { plainState with secured := true } =
      Target.encrypted := by
  refine ⟨rfl, rfl, by decide, rfl, rfl⟩

/-- C8 (amended): without an interception override, handshake and shutdown
branch on `secured` alone; read, async read and async write branch on
`isSecure() = secured && handshook`; but `available` branches on `secured`
alone, and the endpoint queries, `close` and `async_connect` always target
the raw transport.  The behavioural conjuncts show a secure, handshook read
consuming the encrypted-layer oracle and a non-`isSecure` read consuming
the raw-transport oracle. -/
theorem c8_dispatch_targets (st s1 s2 : Adaptor) (k : Nat)
    (ssl raw : Nat → List Nat × ErrorCode)
    (h1i : s1.intercept = false) (h1sec : s1.secured = true)
    (h1hs : s1.handshook = true) (h1f : s1.smallBufferSet = false)
    (h2i : s2.intercept = false) (h2ns : s2.isSecure = false) :
    (readSomeTarget st = asyncReadSomeTarget st ∧
     asyncReadSomeTarget st = asyncWriteSomeTarget st ∧
     (st.isSecure = true → readSomeTarget st = Target.encrypted) ∧
     (st.isSecure = false → readSomeTarget st = Target.raw)) ∧
    (st.secured = true → availableTarget st = Target.encrypted) ∧
    (st.secured = false → availableTarget st = Target.raw) ∧
    closeTarget st = Target.raw ∧
    remoteEndpointTarget st = Target.raw ∧
    localEndpointTarget st = Target.raw ∧
    asyncConnectTarget st = Target.raw ∧
    asyncHandshakeUsesSsl st = st.secured ∧
    asyncShutdownUsesSsl st = st.secured ∧
    read_some s1 k ssl raw =
      Dispatched.result
        { bytes := (ssl k).1, ec := (ssl k).2, ret := (ssl k).1.length
          usageRecorded := [], st := s1 } ∧
    read_some s2 k ssl raw =
      Dispatched.result
        { bytes := (raw k).1, ec := (raw k).2, ret := (raw k).1.length
          usageRecorded := [(raw k).1.length]
          st := s2.recordReadUsage (raw k).1.length } := by
  refine ⟨⟨rfl, rfl, ?_, ?_⟩, ?_, ?_, rfl, rfl, rfl, rfl, rfl, rfl, ?_, ?_⟩
  · intro h; simp [readSomeTarget, h]
  · intro h; simp [readSomeTarget, h]
  · intro h; simp [availableTarget, h]
  · intro h; simp [availableTarget, h]
  · simp [read_some, Adaptor.isSecure, h1i, h1sec, h1hs, h1f]
  · simp [read_some, h2i, h2ns]

/-- C8 witness: the amended theorem applied to a secure, handshook adaptor
(for both quantified states) with concrete oracles on each layer. -/
theorem c8_dispatch_targets_witness :
    (readSomeTarget secureState = asyncReadSomeTarget secureState ∧
     asyncReadSomeTarget secureState = asyncWriteSomeTarget secureState ∧
     (Adaptor.isSecure secureState = true →
       readSomeTarget secureState = Target.encrypted) ∧
     (Adaptor.isSecure secureState = false →
       readSomeTarget secureState = Target.raw)) ∧
    (secureState.secured = true →
      availableTarget secureState = Target.encrypted) ∧
    (secureState.secured = false →
      availableTarget secureState = Target.raw) ∧
    closeTarget secureState = Target.raw ∧
    remoteEndpointTarget secureState = Target.raw ∧
    localEndpointTarget secureState = Target.raw ∧
    asyncConnectTarget secureState = Target.raw ∧
    asyncHandshakeUsesSsl secureState = secureState.secured ∧
    asyncShutdownUsesSsl secureState = secureState.secured ∧
    read_some secureState 10 oracleTwo oracleThree =
      Dispatched.result
        { bytes := (oracleTwo 10).1, ec := (oracleTwo 10).2
          ret := (oracleTwo 10).1.length
          usageRecorded := [], st := secureState } ∧
    read_some plainState 10 oracleTwo oracleThree =
      Dispatched.result
        { bytes := (oracleThree 10).1, ec := (oracleThree 10).2
          ret := (oracleThree 10).1.length
          usageRecorded := [(oracleThree 10).1.length]
          st := plainState.recordReadUsage (oracleThree 10).1.length } :=
  c8_dispatch_targets secureState secureState plainState 10
    oracleTwo oracleThree rfl rfl rfl rfl rfl rfl

/-- C1: the quota gate of the null-buffers `async_read_some`.  With no
interception override: (a) alarm quota exhausted, not alarmed, refresh
loop running — the alarm is logged and `alarmed` set, with no synchronous
tick; (b) alarm quota exhausted, not alarmed, loop not running — exactly
one synchronous refresh-tick is performed instead of alarming; (c) hard
quota exhausted with the loop running — the read is suspended as a
continuation on the next timer firing (and a fired continuation re-issues
the read); (d) hard quota exhausted with the loop not running (and a
nonzero configured hard quota, zero meaning no limiting is configured) —
exactly one synchronous refresh-tick is performed and the read proceeds
without suspension. -/
theorem c1_async_read_quota_gating
    (sa sb sc sd : Adaptor)
    (hai : sa.intercept = false) (ha1 : sa.alarmed = false)
    (ha2 : sa.dataRateAlarm.remainingQuota = 0)
    (ha3 : sa.dataRateTimerStarted = true)
    (hbi : sb.intercept = false) (hb1 : sb.alarmed = false)
    (hb2 : sb.dataRateAlarm.remainingQuota = 0)
    (hb3 : sb.dataRateTimerStarted = false)
    (hci : sc.intercept = false)
    (hc1 : sc.dataRateLimit.remainingQuota = 0)
    (hc2 : sc.dataRateTimerStarted = true)
    (hdi : sd.intercept = false)
    (hd1 : sd.dataRateLimit.remainingQuota = 0)
    (hd2 : sd.dataRateTimerStarted = false)
    (hd3 : sd.dataRateLimit.getQuota ≠ 0) :
    (∀ r, async_read_some sa = Dispatched.result r →
      r.alarmLogged = true ∧ r.st.alarmed = true ∧ r.syncTicks = 0) ∧
    (∀ r, async_read_some sb = Dispatched.result r →
      r.alarmLogged = false ∧ r.st.alarmed = false ∧ r.syncTicks = 1 ∧
      r.st.dataRateTimerStarted = true) ∧
    (∀ r, async_read_some sc = Dispatched.result r →
      r.outcome = AsyncReadOutcome.suspended ∧ r.syncTicks = 0) ∧
    (∀ s : Adaptor,
      (suspendedReadCallback ErrorCode.success (some s)).reissuedRead =
        true) ∧
    (∀ r, async_read_some sd = Dispatched.result r →
      r.outcome ≠ AsyncReadOutcome.suspended ∧ r.syncTicks = 1 ∧
      r.st.dataRateTimerStarted = true) := by
  refine ⟨?_, ?_, ?_, fun s => by simp [suspendedReadCallback], ?_⟩
  · intro r hr
    by_cases hq : sa.dataRateLimit.remainingQuota = 0
    · simp [async_read_some, alarmGate, hai, ha1, ha2, ha3, hq] at hr
      subst hr
      simp
    · simp [async_read_some, alarmGate, hai, ha1, ha2, ha3, hq] at hr
      subst hr
      simp
  · intro r hr
    by_cases hq : sb.dataRateLimit.quota = 0
    · simp [async_read_some, alarmGate, Adaptor.onTimer, hbi, hb1, hb2,
            hb3, remainingQuota_onTimer, hq] at hr
      subst hr
      simp [Adaptor.onTimer]
    · simp [async_read_some, alarmGate, Adaptor.onTimer, hbi, hb1, hb2,
            hb3, remainingQuota_onTimer, hq] at hr
      subst hr
      simp [Adaptor.onTimer]
  · intro r hr
    by_cases hal : sc.alarmed = false ∧ sc.dataRateAlarm.remainingQuota = 0
    · simp [async_read_some, alarmGate, hci, hal.1, hal.2, hc1, hc2] at hr
      subst hr
      simp
    · simp [async_read_some, alarmGate, hci, hal, hc1, hc2] at hr
      subst hr
      simp
  · intro r hr
    have hd3q : sd.dataRateLimit.quota ≠ 0 := hd3
    by_cases hal : sd.alarmed = false ∧ sd.dataRateAlarm.remainingQuota = 0
    · simp [async_read_some, alarmGate, Adaptor.onTimer, hdi, hal.1, hal.2,
            hd2, remainingQuota_onTimer, hd3q] at hr
      subst hr
      refine ⟨?_, by simp, by simp [Adaptor.onTimer]⟩
      split
      · split <;> simp
      · simp
    · simp [async_read_some, alarmGate, Adaptor.onTimer, hdi, hal, hd1,
            hd2] at hr
      subst hr
      refine ⟨?_, by simp, by simp [Adaptor.onTimer]⟩
      split
      · split <;> simp
      · simp

/-- C1 witness: the theorem applied to four concrete adaptors, one per
scenario, with the concrete async-read results they produce. -/
theorem c1_async_read_quota_gating_witness :
    (alarmStartedRead.alarmLogged = true ∧
     alarmStartedRead.st.alarmed = true ∧ alarmStartedRead.syncTicks = 0) ∧
    (alarmFreshRead.alarmLogged = false ∧
     alarmFreshRead.st.alarmed = false ∧ alarmFreshRead.syncTicks = 1 ∧
     alarmFreshRead.st.dataRateTimerStarted = true) ∧
    (hardStartedRead.outcome = AsyncReadOutcome.suspended ∧
     hardStartedRead.syncTicks = 0) ∧
    ((suspendedReadCallback ErrorCode.success (some plainState)).reissuedRead
       = true) ∧
    (hardFreshRead.outcome ≠ AsyncReadOutcome.suspended ∧
     hardFreshRead.syncTicks = 1 ∧
     hardFreshRead.st.dataRateTimerStarted = true) := by
  have h := c1_async_read_quota_gating
    alarmStartedState alarmFreshState hardStartedState hardFreshState
    rfl rfl (by decide) rfl rfl rfl (by decide) rfl rfl (by decide) rfl
    rfl (by decide) rfl (by decide)
  exact ⟨h.1 alarmStartedRead (by decide),
         h.2.1 alarmFreshRead (by decide),
         h.2.2.1 hardStartedRead (by decide),
         h.2.2.2.1 plainState,
         h.2.2.2.2 hardFreshRead (by decide)⟩

/-- C2 counterexample: with the workaround byte 42 cached, the very next
read call — a `read_some` with a zero-sized caller buffer — returns no
bytes at all: the cached byte is not the first byte of that read's result
(it stays cached for a later read), contradicting the claim that the byte
cached by one read is returned as the first byte of the very next read
call. -/
theorem c2_counterexample :
    read_some cachedState 0 oracleNil oracleNil =
      Dispatched.result
        { bytes := [], ec := ErrorCode.success, ret := 0
          usageRecorded := [], st := cachedState } ∧
    cachedState.smallBufferSet = true ∧
    ([] : List Nat).head? ≠ some cachedState.smallBuffer := by
  refine ⟨rfl, rfl, by decide⟩

/-- C2 (amended): the workaround byte is set only immediately after the
internal one-byte asynchronous read completes with a nonzero length (no
other operation sets it), and the cached byte is returned, exactly once
and at position 0, by the next synchronous `read_some` whose buffer has
size at least 1, which also clears the cache; a read whose buffer cannot
hold it (size zero) leaves the byte cached for a later read, so no
caller-visible byte is duplicated or dropped. -/
theorem c2_pending_byte_invariant
    (s s3 : Adaptor) (b len : Nat) (e : ErrorCode)
    (s2 : Adaptor) (k : Nat) (ssl raw : Nat → List Nat × ErrorCode)
    (hs : s.smallBufferSet = false)
    (h3f : s3.smallBufferSet = false)
    (h2i : s2.intercept = false) (h2sec : s2.secured = true)
    (h2hs : s2.handshook = true) (h2f : s2.smallBufferSet = true)
    (h2k : 1 ≤ k) :
    ((smallReadCompletion s b len e).st.smallBufferSet = true ↔ len ≠ 0) ∧
    (len ≠ 0 → (smallReadCompletion s b len e).st.smallBuffer = b ∧
      (smallReadCompletion s b len e).handler = { ec := e, len := len }) ∧
    (∀ err, (Adaptor.onTimer s3 err).smallBufferSet = false) ∧
    (∀ r, async_read_some s3 = Dispatched.result r →
      r.st.smallBufferSet = false) ∧
    (∀ p, async_handshake s3 = Dispatched.result p →
      p.1.smallBufferSet = false) ∧
    ((moveConstruct s3).dst.smallBufferSet = false ∧
     (moveConstruct s3).srcAfter.smallBufferSet = false) ∧
    (∀ n ss rr r, read_some s3 n ss rr = Dispatched.result r →
      r.st.smallBufferSet = false) ∧
    (∀ r, read_some s2 k ssl raw = Dispatched.result r →
      r.bytes.head? = some s2.smallBuffer ∧ r.st.smallBufferSet = false ∧
      (r.bytes = [s2.smallBuffer] ∨
       r.bytes = s2.smallBuffer :: (ssl (k - 1)).1)) ∧
    (∀ ss rr r, read_some s2 0 ss rr = Dispatched.result r →
      r.st = s2) := by
  refine ⟨?_, ?_, ?_, ?_, ?_, ?_, ?_, ?_, ?_⟩
  · by_cases hl : len ≠ 0 <;> simp [smallReadCompletion, hl, hs]
  · intro hl
    simp [smallReadCompletion, hl]
  · intro err
    by_cases herr : err = ErrorCode.operationAborted <;>
      simp [Adaptor.onTimer, herr, h3f]
  · intro r hr
    by_cases hi3 : s3.intercept
    · simp [async_read_some, hi3] at hr
    · simp only [async_read_some, hi3, Bool.false_eq_true,
                 if_false] at hr
      split at hr
      · simp only [Dispatched.result.injEq] at hr
        subst hr
        simp [alarmGate_smallBufferSet, h3f]
      · simp only [Dispatched.result.injEq] at hr
        subst hr
        simp only []
        split <;>
          simp [onTimer_smallBufferSet, alarmGate_smallBufferSet, h3f]
  · intro p hp
    by_cases hi3 : s3.intercept
    · simp [async_handshake, hi3] at hp
    · by_cases hsec3 : s3.secured <;>
        simp [async_handshake, hi3, hsec3] at hp <;>
        subst hp <;> simp [h3f]
  · simp [moveConstruct, h3f]
  · intro n ss rr r hr
    by_cases hi3 : s3.intercept
    · simp [read_some, hi3] at hr
    · by_cases hsec3 : s3.isSecure = true
      · simp [read_some, hi3, hsec3, h3f] at hr
        subst hr
        simp [h3f]
      · simp only [Bool.not_eq_true] at hsec3
        simp [read_some, hi3, hsec3] at hr
        subst hr
        simp [Adaptor.recordReadUsage, h3f]
  · intro r hr
    by_cases hc : (ssl (k - 1)).2.isError = true ∧ (ssl (k - 1)).1 = []
    · simp [read_some, Adaptor.isSecure, h2i, h2sec, h2hs, h2f, h2k,
            hc.1, hc.2] at hr
      subst hr
      simp [Adaptor.recordReadUsage]
    · simp [read_some, Adaptor.isSecure, h2i, h2sec, h2hs, h2f, h2k,
            hc] at hr
      subst hr
      simp [Adaptor.recordReadUsage]
  · intro ss rr r hr
    simp [read_some, Adaptor.isSecure, h2i, h2sec, h2hs, h2f] at hr
    subst hr
    rfl

/-- C2 witness: the amended theorem applied at concrete states: the
completion handler with length 1 caches byte 9; no other concrete
operation raises the flag from `plainState`; the next adequate read of
`cachedState` returns 42 first and clears the cache; the zero-sized read
leaves `cachedState` untouched. -/
theorem c2_pending_byte_invariant_witness :
    ((smallReadCompletion plainState 9 1 ErrorCode.success).st.smallBufferSet
       = true ↔ (1 : Nat) ≠ 0) ∧
    ((smallReadCompletion plainState 9 1 ErrorCode.success).st.smallBuffer
       = 9 ∧
     (smallReadCompletion plainState 9 1 ErrorCode.success).handler =
       { ec := ErrorCode.success, len := 1 }) ∧
    (Adaptor.onTimer plainState ErrorCode.success).smallBufferSet = false ∧
    plainAsyncRead.st.smallBufferSet = false ∧
    ((plainState, HandshakeOutcome.handlerInvoked ErrorCode.success) :
        Adaptor × HandshakeOutcome).1.smallBufferSet = false ∧
    ((moveConstruct plainState).dst.smallBufferSet = false ∧
     (moveConstruct plainState).srcAfter.smallBufferSet = false) ∧
    insecureNilRead.st.smallBufferSet = false ∧
    (consumedRead.bytes.head? = some cachedState.smallBuffer ∧
     consumedRead.st.smallBufferSet = false ∧
     (consumedRead.bytes = [cachedState.smallBuffer] ∨
      consumedRead.bytes = cachedState.smallBuffer ::
        (oracleTwo (10 - 1)).1)) ∧
    bypassRead.st = cachedState := by
  have h := c2_pending_byte_invariant plainState plainState 9 1
    ErrorCode.success cachedState 10 oracleTwo oracleNil
    rfl rfl rfl rfl rfl rfl (by decide)
  exact ⟨h.1, h.2.1 (by decide), h.2.2.1 ErrorCode.success,
         h.2.2.2.1 plainAsyncRead (by decide),
         h.2.2.2.2.1 (plainState,
           HandshakeOutcome.handlerInvoked ErrorCode.success) (by decide),
         h.2.2.2.2.2.1,
         h.2.2.2.2.2.2.1 10 oracleTwo oracleNil insecureNilRead (by decide),
         h.2.2.2.2.2.2.2.1 consumedRead (by decide),
         h.2.2.2.2.2.2.2.2 oracleTwo oracleNil bypassRead (by decide)⟩

end Amqpprox
